import Mathlib

/-!
Verification development for the Claude AI Agent backend
(`src/agent/scripts/main_fastapi_app.py` and `src/agent/scripts/database_models.py`).

The embedding is shallow: each Python function relevant to the verified
properties is translated into an executable Lean definition.  Wall-clock
times (`time.time()` floats and `datetime` values) are modelled as rational
numbers of seconds; the in-memory rate-limit dictionary is modelled as a
total function from client keys to timestamp lists (a missing dictionary key
corresponds to the empty list, exactly as the Python code initialises it);
database tables are modelled as lists of records, and a fallible commit is
modelled by an `Except` parameter whose `error` case triggers the rollback
branch of the corresponding `try/except` block.
-/

namespace ClaudeAgent

/-- Python `int()` applied to a float/rational: truncation toward zero
(`Int.tdiv` truncates toward zero). -/
def pyInt (q : ℚ) : ℤ := q.num.tdiv (q.den : ℤ)

/-- Python `min()` over a list of rationals; the Python call is only reached
on non-empty lists, so the empty case carries an arbitrary default. -/
def listMin : List ℚ → ℚ
  | [] => 0
  | x :: xs => xs.foldl min x

/-- Client keys of the rate limiter (`request.client.host` strings). -/
abbrev Key := String

/-- Rate-limiter configuration: `RATE_LIMIT_REQUESTS` (default 100) and
`RATE_LIMIT_WINDOW` (default 3600), both read as Python `int`s. -/
structure RLConfig where
  maxRequests : ℕ
  windowSeconds : ℤ
deriving DecidableEq, Repr

/-- Result of one `rate_limit_check` call: either the request proceeds, or an
`HTTPException(429)` is raised carrying the computed `retry_after`. -/
inductive RLResult where
  | permit : RLResult
  | deny (retryAfter : ℤ) : RLResult
deriving DecidableEq, Repr

/-- The in-memory `rate_limit_storage` dictionary. -/
abbrev RLState := Key → List ℚ

/-- Empty `rate_limit_storage` at process start. -/
def rlEmpty : RLState := fun _ => []

/-- Function `rate_limit_check` (main_fastapi_app.py lines 175-205): drop the stored
timestamps at or before `now - window_seconds`, deny with
`retry_after = int(window_seconds - (now - min(remaining)))` when at least
`max_requests` timestamps remain, otherwise append `now` and permit. -/
def rate_limit_check (cfg : RLConfig) (st : RLState) (key : Key) (now : ℚ) :
    RLResult × RLState :=
  let cutoff : ℚ := now - (cfg.windowSeconds : ℚ)
  let kept := (st key).filter (fun t => decide (cutoff < t))
  if cfg.maxRequests ≤ kept.length then
    (RLResult.deny (pyInt ((cfg.windowSeconds : ℚ) - (now - listMin kept))),
      Function.update st key kept)
  else
    (RLResult.permit, Function.update st key (kept ++ [now]))

/-- Whether an `RLResult` is a permit. -/
def RLResult.isPermit : RLResult → Bool
  | .permit => true
  | .deny _ => false

/-- Run the rate limiter over a chronological list of `(client, time)`
requests, recording each request's decision and the final storage state. -/
def rlRun (cfg : RLConfig) (st : RLState) :
    List (Key × ℚ) → List ((Key × ℚ) × Bool) × RLState
  | [] => ([], st)
  | e :: rest =>
      let s := rate_limit_check cfg st e.1 e.2
      let r := rlRun cfg s.2 rest
      ((e, s.1.isPermit) :: r.1, r.2)

/-- The timestamps of the permitted requests of one client in a decision log. -/
def grantedTimes (key : Key) (log : List ((Key × ℚ) × Bool)) : List ℚ :=
  (log.filter (fun x => x.2 && (x.1.1 == key))).map (fun x => x.1.2)

/-- Client information extracted by `get_client_info` (lines 207-213). -/
structure ClientInfo where
  ip : String
  userAgent : String
  referer : String
deriving DecidableEq, Repr

/-- A row of `conversation_logs` (`ConversationLog` in database_models.py,
lines 47-79), restricted to the columns the application writes or reads. -/
structure ConversationLog where
  sessionId : String
  timestamp : ℚ
  userMessage : String
  assistantResponse : String
  tokensUsed : ℕ
  processingTime : ℚ
  modelUsed : String
  success : Bool
  errorMessage : Option String
  errorType : Option String
  userIp : Option String
  userAgent : Option String
deriving DecidableEq, Repr

/-- A row of `user_sessions` (`UserSession` in database_models.py, lines
81-122), restricted to the columns the application writes or reads; the
`updated_at` column carries `onupdate=datetime.utcnow`, so it is refreshed by
every UPDATE of the row. -/
structure UserSession where
  sessionUuid : String
  createdAt : ℚ
  lastActivity : ℚ
  sessionStatus : String
  totalMessages : ℤ
  totalTokens : ℤ
  totalProcessingTime : ℚ
  userIp : Option String
  userAgent : Option String
  totalErrors : ℤ
  avgResponseTime : ℚ
  updatedAt : ℚ
deriving DecidableEq, Repr

/-- A row of `system_metrics` (`SystemMetrics` in database_models.py, lines
124-158), restricted to the columns written by `collect_system_metrics` plus
the `timestamp` column the retention sweep filters on. -/
structure SystemMetrics where
  timestamp : ℚ
  cpuPercent : ℚ
  memoryPercent : ℚ
  diskPercent : ℚ
  memoryUsedMb : ℚ
  memoryTotalMb : ℚ
  diskUsedGb : ℚ
  diskTotalGb : ℚ
  uptimeSeconds : ℤ
  healthStatus : String
deriving DecidableEq, Repr

/-- Modelled from the spec: the `ErrorLog` model class is imported by
main_fastapi_app.py but its definition is cut off from the end of
database_models.py; the spec describes `ErrorLogRecord` as "error occurrences
with timestamp; pruned by the Retention Sweeper". -/
structure ErrorLog where
  timestamp : ℚ
  errorMessage : String
deriving DecidableEq, Repr

/-- The relational store, one list per table. -/
structure Database where
  conversations : List ConversationLog
  sessions : List UserSession
  metrics : List SystemMetrics
  errorLogs : List ErrorLog
deriving DecidableEq, Repr

deriving instance DecidableEq for Except

/-- Outcome of one `db.commit()`: `ok` for a committed transaction, `error`
for a raised storage exception (which the caller catches and rolls back). -/
abbrev Commit := Except String Unit

/-- Function `log_conversation` (lines 215-247): build a `ConversationLog` row from the
arguments (`assistant_response or ""`, client ip / user agent when present),
add and commit it; on a storage error the exception is caught, logged and the
transaction rolled back, leaving the table unchanged and raising nothing. -/
def log_conversation (convs : List ConversationLog) (commit : Commit)
    (now : ℚ) (sessionId userMessage : String)
    (assistantResponse : Option String) (tokensUsed : ℕ)
    (processingTime : ℚ) (modelUsed : String) (success : Bool)
    (errorMessage : Option String) (errorType : Option String)
    (clientInfo : Option ClientInfo) : List ConversationLog :=
  match commit with
  | .error _ => convs
  | .ok _ =>
      convs ++ [{
        sessionId := sessionId
        timestamp := now
        userMessage := userMessage
        assistantResponse := assistantResponse.getD ""
        tokensUsed := tokensUsed
        processingTime := processingTime
        modelUsed := modelUsed
        success := success
        errorMessage := errorMessage
        errorType := errorType
        userIp := clientInfo.map (·.ip)
        userAgent := clientInfo.map (·.userAgent) }]

/-- Replace the first element satisfying `p` by its image under `f`
(the effect of mutating the row returned by `.first()`). -/
def updateFirst (p : α → Bool) (f : α → α) : List α → List α
  | [] => []
  | x :: xs => if p x then f x :: xs else x :: updateFirst p f xs

/-- The fresh `UserSession` row created by `update_session_stats` for an
unknown `session_id`: explicit columns from the constructor call, remaining
columns at their schema defaults (`utcnow` timestamps, status "active",
zeroed counters). -/
def newUserSession (sessionId : String) (clientInfo : ClientInfo) (now : ℚ) :
    UserSession where
  sessionUuid := sessionId
  createdAt := now
  lastActivity := now
  sessionStatus := "active"
  totalMessages := 0
  totalTokens := 0
  totalProcessingTime := 0
  userIp := some clientInfo.ip
  userAgent := some clientInfo.userAgent
  totalErrors := 0
  avgResponseTime := 0
  updatedAt := now

/-- Function `update_session_stats` (lines 249-269): look up the session row by
`session_uuid`; if absent, add a fresh row (schema defaults, counters zeroed);
if present, set `last_activity = utcnow` and increment `total_messages`
(the UPDATE also refreshes the `onupdate` column `updated_at`); commit, and on
a storage error catch, log and roll back, leaving the table unchanged. -/
def update_session_stats (sessions : List UserSession) (commit : Commit)
    (sessionId : String) (clientInfo : ClientInfo) (now : ℚ) :
    List UserSession :=
  match commit with
  | .error _ => sessions
  | .ok _ =>
      match sessions.find? (fun s => s.sessionUuid == sessionId) with
      | none => sessions ++ [newUserSession sessionId clientInfo now]
      | some _ =>
          updateFirst (fun s => s.sessionUuid == sessionId)
            (fun s => { s with
              lastActivity := now
              totalMessages := s.totalMessages + 1
              updatedAt := now }) sessions

/-- Message roles of the Anthropic messages API. -/
inductive Role where
  | user : Role
  | assistant : Role
deriving DecidableEq, Repr

/-- One `{"role": ..., "content": ...}` entry of the prompt message list. -/
structure Message where
  role : Role
  content : String
deriving DecidableEq, Repr

/-- The ORDER BY `timestamp DESC` relation of the history queries. -/
def tsDesc (a b : ConversationLog) : Prop := b.timestamp ≤ a.timestamp

instance : DecidableRel tsDesc := fun _ _ => inferInstanceAs (Decidable (_ ≤ _))

/-- The successful conversations of one session, in table order:
`filter(session_id == sid, success == True)`. -/
def successfulFor (db : List ConversationLog) (sessionId : String) :
    List ConversationLog :=
  db.filter (fun c => c.sessionId == sessionId && c.success)

/-- The history query of `chat_with_claude` and `get_conversation_history`:
successful rows of the session, ordered by timestamp descending, first
`limit` rows. -/
def recentConversations (db : List ConversationLog) (sessionId : String)
    (limit : ℕ) : List ConversationLog :=
  ((successfulFor db sessionId).insertionSort tsDesc).take limit

/-- The `for conv in reversed(recent_conversations)` loop body of lines
364-366: one user message and one assistant message per record. -/
def buildHistory : List ConversationLog → List Message
  | [] => []
  | c :: rest =>
      ⟨Role.user, c.userMessage⟩ :: ⟨Role.assistant, c.assistantResponse⟩ ::
        buildHistory rest

/-- The full message list sent to the provider (lines 356-369): the 10 most
recent successful records, reversed to chronological order and flattened,
then the current user message appended. -/
def claudeMessages (db : List ConversationLog) (sessionId message : String) :
    List Message :=
  buildHistory (recentConversations db sessionId 10).reverse ++
    [⟨Role.user, message⟩]

/-- A parsed `POST /chat` body (`ChatRequest`, lines 61-71). -/
structure ChatRequest where
  message : String
  sessionId : Option String
  model : String
  maxTokens : ℕ
deriving DecidableEq, Repr

/-- The `ChatResponse` body (lines 73-81). -/
structure ChatResponse where
  success : Bool
  response : Option String
  sessionId : String
  tokensUsed : ℕ
  processingTime : ℚ
  modelUsed : String
  error : Option String
  errorType : Option String
deriving DecidableEq, Repr

/-- An `HTTPException` raised by the endpoint, restricted to the fields of its
`detail` payload that the code fills in. -/
structure HTTPError where
  status : ℕ
  errorType : Option String
  retryAfter : Option ℤ
deriving DecidableEq, Repr

/-- Result of the `anthropic_client.messages.create` call: a response with its
content blocks and token usage, or one of the three caught exception classes. -/
inductive ProviderResult where
  | ok (content : List String) (inputTokens outputTokens : ℕ) : ProviderResult
  | rateLimitError : ProviderResult
  | apiError : ProviderResult
  | otherError (msg : String) : ProviderResult
deriving DecidableEq, Repr

/-- A task queued on `background_tasks` by `chat_with_claude`: either the
`log_conversation` call with its captured arguments, or the
`update_session_stats` call. -/
inductive PendingTask where
  | logConv (sessionId userMessage : String) (assistantResponse : Option String)
      (tokensUsed : ℕ) (processingTime : ℚ) (modelUsed : String)
      (success : Bool) (errorMessage errorType : Option String)
      (clientInfo : Option ClientInfo) : PendingTask
  | updateSession (sessionId : String) (clientInfo : ClientInfo) : PendingTask
deriving DecidableEq, Repr

/-- Everything observable about one `chat_with_claude` invocation: the HTTP
outcome, the queued background persistence tasks, the rate-limiter storage
after the call, and the message list handed to the provider (absent when the
provider call was never reached). -/
structure ChatCallResult where
  outcome : Except HTTPError ChatResponse
  tasks : List PendingTask
  rlState : RLState
  sentMessages : Option (List Message)

/-- Assignment `session_id = request.session_id or str(uuid.uuid4())`: Python `or` takes
the fresh UUID when `session_id` is absent or falsy (the empty string). -/
def resolveSessionId (requested : Option String) (freshId : String) : String :=
  match requested with
  | none => freshId
  | some s => if s == "" then freshId else s

/-- Endpoint handler `chat_with_claude` (lines 337-457).  Inputs standing for the environment:
`now` (wall-clock), `freshId` (`uuid.uuid4()`), `fetchError` (a raised
non-HTTP exception inside the outer `try`, e.g. from the history query;
`none` means the query succeeds against `db`), `provider` (outcome of the
Anthropic call) and `procTime` (`time.time() - start_time`).

Control flow translated from the source: a rate-limit denial raises 429
before anything else; a provider `RateLimitError`/`APIError`/other exception
raises `HTTPException` 429/503/500, which the outer `except HTTPException`
re-raises, so no background task is queued on those paths; a non-HTTP
exception queues exactly one failed `log_conversation` task and returns a
`success=False` body; a successful provider call queues the successful
`log_conversation` task and the `update_session_stats` task. -/
def chat_with_claude (cfg : RLConfig) (rlSt : RLState)
    (clientInfo : ClientInfo) (now : ℚ) (req : ChatRequest)
    (freshId : String) (db : List ConversationLog)
    (fetchError : Option String) (provider : ProviderResult)
    (procTime : ℚ) : ChatCallResult :=
  match rate_limit_check cfg rlSt clientInfo.ip now with
  | (RLResult.deny retryAfter, st') =>
      { outcome := .error ⟨429, none, some retryAfter⟩
        tasks := []
        rlState := st'
        sentMessages := none }
  | (RLResult.permit, st') =>
      let sessionId := resolveSessionId req.sessionId freshId
      match fetchError with
      | some msg =>
          { outcome := .ok {
              success := false
              response := none
              sessionId := sessionId
              tokensUsed := 0
              processingTime := procTime
              modelUsed := req.model
              error := some "An unexpected error occurred"
              errorType := some "general_error" }
            tasks := [.logConv sessionId req.message none 0 procTime
              req.model false (some msg) (some "general_error")
              (some clientInfo)]
            rlState := st'
            sentMessages := none }
      | none =>
          let messages := claudeMessages db sessionId req.message
          match provider with
          | .ok content inputTokens outputTokens =>
              let assistantResponse :=
                match content with
                | [] => ""
                | text :: _ => text
              let tokensUsed := inputTokens + outputTokens
              { outcome := .ok {
                  success := true
                  response := some assistantResponse
                  sessionId := sessionId
                  tokensUsed := tokensUsed
                  processingTime := procTime
                  modelUsed := req.model
                  error := none
                  errorType := none }
                tasks := [.logConv sessionId req.message
                    (some assistantResponse) tokensUsed procTime req.model
                    true none none (some clientInfo),
                  .updateSession sessionId clientInfo]
                rlState := st'
                sentMessages := some messages }
          | .rateLimitError =>
              { outcome := .error ⟨429, some "api_rate_limit", some 60⟩
                tasks := []
                rlState := st'
                sentMessages := some messages }
          | .apiError =>
              { outcome := .error ⟨503, some "api_error", none⟩
                tasks := []
                rlState := st'
                sentMessages := some messages }
          | .otherError _ =>
              { outcome := .error ⟨500, some "general_error", none⟩
                tasks := []
                rlState := st'
                sentMessages := some messages }

/-- Execute one queued background task against the store, with the given
commit outcome and wall-clock time. -/
def runTask (db : Database) (commit : Commit) (now : ℚ) :
    PendingTask → Database
  | .logConv sessionId userMessage assistantResponse tokensUsed processingTime
      modelUsed success errorMessage errorType clientInfo =>
      { db with conversations :=
          (log_conversation db.conversations commit now
            sessionId userMessage assistantResponse tokensUsed processingTime
            modelUsed success errorMessage errorType clientInfo) }
  | .updateSession sessionId clientInfo =>
      { db with sessions :=
          (update_session_stats db.sessions commit sessionId
            clientInfo now) }

/-- Execute the queued background tasks in order; `commits` pairs each task
with its commit outcome (`ok` by default when the list runs short). -/
def runTasks (db : Database) (now : ℚ) :
    List PendingTask → List Commit → Database
  | [], _ => db
  | t :: ts, commits =>
      runTasks (runTask db (commits.headD (.ok ())) now t) now ts commits.tail

/-- A whole chat exchange: the endpoint call followed by the execution of its
background persistence tasks. -/
def chatExchange (cfg : RLConfig) (rlSt : RLState) (clientInfo : ClientInfo)
    (now : ℚ) (req : ChatRequest) (freshId : String) (db : Database)
    (fetchError : Option String) (provider : ProviderResult) (procTime : ℚ)
    (commits : List Commit) : ChatCallResult × Database :=
  let call := chat_with_claude cfg rlSt clientInfo now req freshId
    db.conversations fetchError provider procTime
  (call, runTasks db now call.tasks commits)

/-- The `SessionInfo` response body of `GET /sessions/{id}` (lines 92-98). -/
structure SessionInfo where
  sessionId : String
  createdAt : ℚ
  lastActivity : ℚ
  totalMessages : ℤ
  totalTokens : ℤ
  avgResponseTime : ℚ
deriving DecidableEq, Repr

/-- Endpoint `get_session_info` (lines 459-473): 404 when no `user_sessions` row
matches, else the row's aggregates. -/
def get_session_info (sessions : List UserSession) (sessionId : String) :
    Except HTTPError SessionInfo :=
  match sessions.find? (fun s => s.sessionUuid == sessionId) with
  | none => .error ⟨404, none, none⟩
  | some s => .ok ⟨s.sessionUuid, s.createdAt, s.lastActivity,
      s.totalMessages, s.totalTokens, s.avgResponseTime⟩

/-- One entry of the `GET /sessions/{id}/history` response list. -/
structure HistoryEntry where
  timestamp : ℚ
  userMessage : String
  assistantResponse : String
  tokensUsed : ℕ
  processingTime : ℚ
deriving DecidableEq, Repr

/-- The `GET /sessions/{id}/history` response body. -/
structure HistoryResponse where
  sessionId : String
  conversations : List HistoryEntry
deriving DecidableEq, Repr

/-- Endpoint `get_conversation_history` (lines 475-499): the same successful-rows
query as the chat context fetch with a caller-chosen limit (default 50),
reversed to chronological order; always succeeds. -/
def get_conversation_history (db : List ConversationLog) (sessionId : String)
    (limit : ℕ) : HistoryResponse where
  sessionId := sessionId
  conversations := (recentConversations db sessionId limit).reverse.map
    (fun c => ⟨c.timestamp, c.userMessage, c.assistantResponse,
      c.tokensUsed, c.processingTime⟩)

/-- Thirty days in seconds (`timedelta(days=30)`). -/
def thirtyDays : ℚ := 2592000

/-- One iteration of `cleanup_old_data` (lines 570-595): delete the
`system_metrics` and `error_logs` rows with `timestamp < utcnow - 30 days`,
returning the new store and the two deletion counts that are logged. -/
def cleanup_old_data (db : Database) (now : ℚ) : Database × ℕ × ℕ :=
  let cutoff := now - thirtyDays
  let oldMetrics := db.metrics.countP (fun m => decide (m.timestamp < cutoff))
  let oldErrors := db.errorLogs.countP (fun e => decide (e.timestamp < cutoff))
  ({ db with
      metrics := db.metrics.filter (fun m => !decide (m.timestamp < cutoff))
      errorLogs :=
        db.errorLogs.filter (fun e => !decide (e.timestamp < cutoff)) },
    oldMetrics, oldErrors)


/-- window-bounded admission record -/
def SplitOK (cfg : RLConfig) (l : List ℚ) : Prop :=
  ∀ l₁ p l₂, l = l₁ ++ p :: l₂ →
    l₁.countP (fun s => decide (p - (cfg.windowSeconds : ℚ) < s)) < cfg.maxRequests

lemma splitOK_nil (cfg : RLConfig) : SplitOK cfg [] := by
  intro l₁ p l₂ h
  exact absurd h (by simp)

lemma splitOK_of_append {cfg : RLConfig} {l : List ℚ} {p : ℚ}
    (h : SplitOK cfg (l ++ [p])) : SplitOK cfg l := by
  intro l₁ q l₂ hsplit
  exact h l₁ q (l₂ ++ [p]) (by simp [hsplit])

lemma splitOK_append {cfg : RLConfig} {l : List ℚ} {p : ℚ}
    (hl : SplitOK cfg l)
    (hp : l.countP (fun s => decide (p - (cfg.windowSeconds : ℚ) < s)) < cfg.maxRequests) :
    SplitOK cfg (l ++ [p]) := by
  intro l₁ q l₂ h
  induction l₂ using List.reverseRecOn with
  | nil =>
      obtain ⟨h3, h4⟩ := List.append_inj' h rfl
      have h5 : p = q := by simpa using h4
      subst h3
      subst h5
      exact hp
  | append_singleton l₂' x _ =>
      have h' : l ++ [p] = (l₁ ++ q :: l₂') ++ [x] := by simpa using h
      obtain ⟨h3, _⟩ := List.append_inj' h' rfl
      exact hl l₁ q l₂' h3

lemma splitOK_countP_le {cfg : RLConfig} {l : List ℚ} (h : SplitOK cfg l) (T : ℚ) :
    l.countP (fun t => decide (T - (cfg.windowSeconds : ℚ) < t) && decide (t ≤ T))
      ≤ cfg.maxRequests := by
  induction l using List.reverseRecOn with
  | nil => simp
  | append_singleton l p ih =>
      have hl := splitOK_of_append h
      rw [List.countP_append]
      by_cases hp : T - (cfg.windowSeconds : ℚ) < p ∧ p ≤ T
      · have hcount : l.countP
            (fun t => decide (T - (cfg.windowSeconds : ℚ) < t) && decide (t ≤ T))
            ≤ l.countP (fun s => decide (p - (cfg.windowSeconds : ℚ) < s)) := by
          apply List.countP_mono_left
          intro a _ hpa
          simp only [Bool.and_eq_true, decide_eq_true_eq] at hpa ⊢
          have : p - (cfg.windowSeconds : ℚ) ≤ T - (cfg.windowSeconds : ℚ) := by
            linarith [hp.2]
          linarith [hpa.1]
        have hlt := h l p [] (by simp)
        have h1 : l.countP
            (fun t => decide (T - (cfg.windowSeconds : ℚ) < t) && decide (t ≤ T))
            < cfg.maxRequests := lt_of_le_of_lt hcount hlt
        have h2 : List.countP
            (fun t => decide (T - (cfg.windowSeconds : ℚ) < t) && decide (t ≤ T)) [p] ≤ 1 := by
          simp only [List.countP_cons, List.countP_nil]
          split <;> omega
        omega
      · have h2 : List.countP
            (fun t => decide (T - (cfg.windowSeconds : ℚ) < t) && decide (t ≤ T)) [p] = 0 := by
          simp only [List.countP_cons, List.countP_nil]
          rcases not_and_or.mp hp with h' | h' <;> simp [h']
        have := ih hl
        omega


/-- Unfolding of one `rlRun` step. -/
lemma rlRun_cons (cfg : RLConfig) (st : RLState) (e : Key × ℚ)
    (rest : List (Key × ℚ)) :
    (rlRun cfg st (e :: rest)).1 =
      (e, (rate_limit_check cfg st e.1 e.2).1.isPermit) ::
        (rlRun cfg (rate_limit_check cfg st e.1 e.2).2 rest).1 := rfl

lemma grantedTimes_cons_false (k : Key) (e : Key × ℚ)
    (l : List ((Key × ℚ) × Bool)) :
    grantedTimes k ((e, false) :: l) = grantedTimes k l := by
  simp [grantedTimes]

lemma grantedTimes_cons_true (k : Key) (e : Key × ℚ)
    (l : List ((Key × ℚ) × Bool)) :
    grantedTimes k ((e, true) :: l) =
      if e.1 == k then e.2 :: grantedTimes k l else grantedTimes k l := by
  by_cases h : e.1 == k <;> simp [grantedTimes, h]

/-- Run invariant: each client's stored list is the in-window filtered tail of
its granted list, with a cutoff below the window of every pending request. -/
def RLInv (cfg : RLConfig) (st : RLState) (G : Key → List ℚ)
    (tr : List (Key × ℚ)) : Prop :=
  ∀ k, ∃ c : ℚ, st k = (G k).filter (fun t => decide (c < t)) ∧
    (G k ≠ [] → ∀ e ∈ tr, c ≤ e.2 - (cfg.windowSeconds : ℚ))

theorem rlRun_splitOK (cfg : RLConfig) (hw : 0 < cfg.windowSeconds) :
    ∀ (tr : List (Key × ℚ)) (st : RLState) (G : Key → List ℚ),
      tr.Pairwise (fun a b => a.2 ≤ b.2) →
      RLInv cfg st G tr →
      (∀ k, SplitOK cfg (G k)) →
      ∀ k, SplitOK cfg (G k ++ grantedTimes k (rlRun cfg st tr).1) := by
  intro tr
  have hwq : (0 : ℚ) < (cfg.windowSeconds : ℚ) := by exact_mod_cast hw
  induction tr with
  | nil =>
      intro st G _ _ hs k
      simpa [rlRun, grantedTimes] using hs k
  | cons e rest ih =>
      obtain ⟨k0, now⟩ := e
      intro st G hmono hinv hs k
      have hmono' := (List.pairwise_cons.mp hmono).2
      have hfuture := (List.pairwise_cons.mp hmono).1
      by_cases hc : cfg.maxRequests ≤
          ((st k0).filter (fun t => decide (now - (cfg.windowSeconds : ℚ) < t))).length
      · -- denied request: storage shrinks to the filtered list, nothing granted
        have hstep : rate_limit_check cfg st k0 now =
            (RLResult.deny (pyInt ((cfg.windowSeconds : ℚ) -
              (now - listMin ((st k0).filter
                (fun t => decide (now - (cfg.windowSeconds : ℚ) < t)))))),
             Function.update st k0 ((st k0).filter
                (fun t => decide (now - (cfg.windowSeconds : ℚ) < t)))) := by
          simp [rate_limit_check, hc]
        have hlog : (rlRun cfg st ((k0, now) :: rest)).1 =
            (((k0, now), false) ::
              (rlRun cfg (Function.update st k0 ((st k0).filter
                (fun t => decide (now - (cfg.windowSeconds : ℚ) < t)))) rest).1) := by
          rw [rlRun_cons cfg st (k0, now) rest, hstep]
          rfl
        rw [hlog, grantedTimes_cons_false]
        refine ih _ G hmono' ?_ hs k
        intro k2
        by_cases hk : k2 = k0
        · subst hk
          obtain ⟨c, hfilt, hcond⟩ := hinv k2
          refine ⟨max c (now - (cfg.windowSeconds : ℚ)), ?_, ?_⟩
          · rw [Function.update_same, hfilt, List.filter_filter]
            apply List.filter_congr
            intro t _
            by_cases h1 : max c (now - (cfg.windowSeconds : ℚ)) < t
            · rcases max_lt_iff.mp h1 with ⟨h2, h3⟩
              simp [h1, h2, h3]
            · rcases not_and_or.mp (fun hh => h1 (max_lt_iff.mpr ⟨hh.2, hh.1⟩)) with h2 | h2 <;>
                simp [h1, h2]
          · intro hne e2 he2
            refine max_le (hcond hne e2 (List.mem_cons_of_mem _ he2)) ?_
            have := hfuture e2 he2
            simpa using sub_le_sub_right this (cfg.windowSeconds : ℚ)
        · obtain ⟨c, hfilt, hcond⟩ := hinv k2
          refine ⟨c, ?_, ?_⟩
          · rw [Function.update_noteq hk, hfilt]
          · intro hne e2 he2
            exact hcond hne e2 (List.mem_cons_of_mem _ he2)
      · -- permitted request: now is appended to storage and to the grant log
        have hlen : ((st k0).filter
            (fun t => decide (now - (cfg.windowSeconds : ℚ) < t))).length <
            cfg.maxRequests := Nat.lt_of_not_le hc
        have hstep : rate_limit_check cfg st k0 now =
            (RLResult.permit,
             Function.update st k0 (((st k0).filter
                (fun t => decide (now - (cfg.windowSeconds : ℚ) < t))) ++ [now])) := by
          simp [rate_limit_check, hc]
        obtain ⟨c, hfilt, hcond⟩ := hinv k0
        -- the stored filtered list is exactly the in-window granted history
        have hkeptG : (st k0).filter (fun t => decide (now - (cfg.windowSeconds : ℚ) < t)) =
            (G k0).filter (fun t => decide (now - (cfg.windowSeconds : ℚ) < t)) := by
          by_cases hG : G k0 = []
          · rw [hfilt, hG]
            simp
          · have hcle : c ≤ now - (cfg.windowSeconds : ℚ) := by
              have := hcond hG (k0, now) (List.mem_cons_self _ _)
              simpa using this
            rw [hfilt, List.filter_filter]
            apply List.filter_congr
            intro t _
            by_cases h1 : now - (cfg.windowSeconds : ℚ) < t
            · have h2 : c < t := lt_of_le_of_lt hcle h1
              simp [h1, h2]
            · simp [h1]
        have hlog : (rlRun cfg st ((k0, now) :: rest)).1 =
            (((k0, now), true) ::
              (rlRun cfg (Function.update st k0 (((st k0).filter
                (fun t => decide (now - (cfg.windowSeconds : ℚ) < t))) ++ [now])) rest).1) := by
          rw [rlRun_cons cfg st (k0, now) rest, hstep]
          rfl
        rw [hlog]
        have hGcount : (G k0).countP
            (fun s => decide (now - (cfg.windowSeconds : ℚ) < s)) < cfg.maxRequests := by
          rw [List.countP_eq_length_filter, ← hkeptG]
          exact hlen
        have hmain := ih (Function.update st k0 (((st k0).filter
              (fun t => decide (now - (cfg.windowSeconds : ℚ) < t))) ++ [now]))
            (Function.update G k0 (G k0 ++ [now])) hmono' ?_ ?_
        · by_cases hk : k0 = k
          · subst hk
            have := hmain k0
            rw [Function.update_same] at this
            rw [grantedTimes_cons_true]
            simp only [beq_self_eq_true, if_true]
            simpa [List.append_assoc] using this
          · have := hmain k
            rw [Function.update_noteq (fun h => hk h.symm)] at this
            rw [grantedTimes_cons_true]
            have hbeq : ((k0, now).1 == k) = false := by
              simpa using hk
            simp only [hbeq, if_false]
            exact this
        · -- invariant for the updated state
          intro k2
          by_cases hk2 : k2 = k0
          · subst hk2
            refine ⟨now - (cfg.windowSeconds : ℚ), ?_, ?_⟩
            · rw [Function.update_same, Function.update_same, List.filter_append,
                hkeptG]
              have : [now].filter (fun t => decide (now - (cfg.windowSeconds : ℚ) < t)) =
                  [now] := by
                have : now - (cfg.windowSeconds : ℚ) < now := by linarith
                simp [this]
              rw [this]
            · intro _ e2 he2
              have := hfuture e2 he2
              simpa using sub_le_sub_right this (cfg.windowSeconds : ℚ)
          · obtain ⟨c2, hfilt2, hcond2⟩ := hinv k2
            refine ⟨c2, ?_, ?_⟩
            · rw [Function.update_noteq hk2, Function.update_noteq hk2, hfilt2]
            · intro hne e2 he2
              rw [Function.update_noteq hk2] at hne
              exact hcond2 hne e2 (List.mem_cons_of_mem _ he2)
        · -- SplitOK for the updated granted lists
          intro k2
          by_cases hk2 : k2 = k0
          · subst hk2
            rw [Function.update_same]
            exact splitOK_append (hs k2) hGcount
          · rw [Function.update_noteq hk2]
            exact hs k2


/-- C1: over any chronological request trace from a fresh limiter, every
client is granted at most `max_requests` permits inside any trailing
`window_seconds` interval; moreover a single `rate_limit_check` call whose
in-window stored count is at least `max_requests` denies with
`retry_after = int(window_seconds - (now - min(remaining)))` and stores only
the filtered list, and otherwise appends `now` and permits. -/
theorem rate_limiter_sliding_window (cfg : RLConfig)
    (hw : 0 < cfg.windowSeconds)
    (tr : List (Key × ℚ))
    (hmono : tr.Pairwise (fun a b => a.2 ≤ b.2)) :
    (∀ k T, (grantedTimes k (rlRun cfg rlEmpty tr).1).countP
        (fun t => decide (T - (cfg.windowSeconds : ℚ) < t) && decide (t ≤ T))
        ≤ cfg.maxRequests)
    ∧ (∀ (st : RLState) (key : Key) (now : ℚ),
        cfg.maxRequests ≤ ((st key).filter
          (fun t => decide (now - (cfg.windowSeconds : ℚ) < t))).length →
        rate_limit_check cfg st key now =
          (RLResult.deny (pyInt ((cfg.windowSeconds : ℚ) - (now - listMin
              ((st key).filter (fun t => decide (now - (cfg.windowSeconds : ℚ) < t)))))),
            Function.update st key ((st key).filter
              (fun t => decide (now - (cfg.windowSeconds : ℚ) < t)))))
    ∧ (∀ (st : RLState) (key : Key) (now : ℚ),
        ((st key).filter (fun t => decide (now - (cfg.windowSeconds : ℚ) < t))).length
          < cfg.maxRequests →
        rate_limit_check cfg st key now =
          (RLResult.permit, Function.update st key (((st key).filter
            (fun t => decide (now - (cfg.windowSeconds : ℚ) < t))) ++ [now]))) := by
  refine ⟨?_, ?_, ?_⟩
  · intro k T
    have hsplit := rlRun_splitOK cfg hw tr rlEmpty (fun _ => []) hmono
      (fun _ => ⟨0, by simp [rlEmpty], by simp⟩) (fun _ => splitOK_nil cfg) k
    have h2 : SplitOK cfg (grantedTimes k (rlRun cfg rlEmpty tr).1) := by
      simpa using hsplit
    exact splitOK_countP_le h2 T
  · intro st key now h
    simp [rate_limit_check, h]
  · intro st key now h
    simp [rate_limit_check, Nat.not_le.mpr h]

theorem rate_limiter_sliding_window_witness :
    (0 < (⟨2, 10⟩ : RLConfig).windowSeconds
      ∧ List.Pairwise (fun a b : Key × ℚ => a.2 ≤ b.2)
          [("a", (0 : ℚ)), ("a", 1), ("a", 2), ("a", 11)])
    ∧ ((∀ k T, (grantedTimes k
          (rlRun ⟨2, 10⟩ rlEmpty [("a", (0 : ℚ)), ("a", 1), ("a", 2), ("a", 11)]).1).countP
        (fun t => decide (T - ((10 : ℤ) : ℚ) < t) && decide (t ≤ T)) ≤ 2)
      ∧ (∀ (st : RLState) (key : Key) (now : ℚ),
          (2 : ℕ) ≤ ((st key).filter
            (fun t => decide (now - ((10 : ℤ) : ℚ) < t))).length →
          rate_limit_check ⟨2, 10⟩ st key now =
            (RLResult.deny (pyInt (((10 : ℤ) : ℚ) - (now - listMin
                ((st key).filter (fun t => decide (now - ((10 : ℤ) : ℚ) < t)))))),
              Function.update st key ((st key).filter
                (fun t => decide (now - ((10 : ℤ) : ℚ) < t)))))
      ∧ (∀ (st : RLState) (key : Key) (now : ℚ),
          ((st key).filter (fun t => decide (now - ((10 : ℤ) : ℚ) < t))).length < 2 →
          rate_limit_check ⟨2, 10⟩ st key now =
            (RLResult.permit, Function.update st key (((st key).filter
              (fun t => decide (now - ((10 : ℤ) : ℚ) < t))) ++ [now])))) :=
  ⟨⟨by decide, by decide⟩,
    rate_limiter_sliding_window ⟨2, 10⟩ (by decide) _ (by decide)⟩

/-- C5: a denied `rate_limit_check` call never appends the request timestamp:
the stored sequence for the client shrinks to a sublist (the in-window
filter) of what successful permits had recorded, and other clients' entries
are untouched. -/
theorem denied_request_no_side_effect (cfg : RLConfig) (st : RLState)
    (key : Key) (now : ℚ) (r : ℤ)
    (h : (rate_limit_check cfg st key now).1 = RLResult.deny r) :
    ((rate_limit_check cfg st key now).2 key).Sublist (st key)
    ∧ (rate_limit_check cfg st key now).2 key =
        (st key).filter (fun t => decide (now - (cfg.windowSeconds : ℚ) < t))
    ∧ ∀ k, k ≠ key → (rate_limit_check cfg st key now).2 k = st k := by
  by_cases hc : cfg.maxRequests ≤ ((st key).filter
      (fun t => decide (now - (cfg.windowSeconds : ℚ) < t))).length
  · have hstep : (rate_limit_check cfg st key now).2 =
        Function.update st key ((st key).filter
          (fun t => decide (now - (cfg.windowSeconds : ℚ) < t))) := by
      simp [rate_limit_check, hc]
    refine ⟨?_, ?_, ?_⟩
    · rw [hstep, Function.update_same]
      exact List.filter_sublist _
    · rw [hstep, Function.update_same]
    · intro k hk
      rw [hstep, Function.update_noteq hk]
  · exfalso
    simp [rate_limit_check, hc] at h

theorem denied_request_no_side_effect_witness :
    (rate_limit_check ⟨1, 10⟩ (fun k => if k = "a" then [5] else []) "a" 6).1
      = RLResult.deny 9
    ∧ (((rate_limit_check ⟨1, 10⟩ (fun k => if k = "a" then [5] else []) "a" 6).2
          "a").Sublist ((fun k => if k = "a" then [5] else []) "a")
      ∧ (rate_limit_check ⟨1, 10⟩ (fun k => if k = "a" then [5] else []) "a" 6).2 "a" =
          ((fun k => if k = "a" then [5] else []) "a").filter
            (fun t => decide (6 - (((10 : ℤ)) : ℚ) < t))
      ∧ ∀ k, k ≠ "a" →
          (rate_limit_check ⟨1, 10⟩ (fun k => if k = "a" then [5] else []) "a" 6).2 k =
            (fun k => if k = "a" then [5] else []) k) :=
  ⟨by norm_num [rate_limit_check, pyInt, listMin, List.filter],
    denied_request_no_side_effect ⟨1, 10⟩ _ "a" 6 9
      (by norm_num [rate_limit_check, pyInt, listMin, List.filter])⟩


/-- Inserting an element strictly older than every list element under the
timestamp-descending order sinks it to the end. -/
lemma orderedInsert_tsDesc_sink {a : ConversationLog} {l : List ConversationLog}
    (h : ∀ b ∈ l, a.timestamp < b.timestamp) :
    l.orderedInsert tsDesc a = l ++ [a] := by
  induction l with
  | nil => rfl
  | cons b m ih =>
      have hb : ¬ tsDesc a b := not_le.mpr (h b (List.mem_cons_self _ _))
      rw [List.orderedInsert, if_neg hb,
        ih (fun x hx => h x (List.mem_cons_of_mem _ hx))]
      rfl

/-- Sorting a strictly-ascending-timestamp list by timestamp descending
reverses it. -/
lemma insertionSort_tsDesc_of_strictAsc {l : List ConversationLog}
    (h : (l.map (fun c => c.timestamp)).Pairwise (· < ·)) :
    l.insertionSort tsDesc = l.reverse := by
  induction l with
  | nil => rfl
  | cons a m ih =>
      rw [List.pairwise_map] at h
      have hhead := (List.pairwise_cons.mp h).1
      have htail := (List.pairwise_cons.mp h).2
      rw [List.insertionSort, ih (List.pairwise_map.mpr htail),
        orderedInsert_tsDesc_sink (fun b hb => hhead b (List.mem_reverse.mp hb))]
      simp

/-- With distinct ascending timestamps, the chat context query keeps exactly
the chronologically last `min(10, n)` successful records, oldest first. -/
lemma claudeMessages_of_strictAsc {db : List ConversationLog} {sid : String}
    (h : ((successfulFor db sid).map (fun c => c.timestamp)).Pairwise (· < ·))
    (msg : String) :
    claudeMessages db sid msg =
      buildHistory ((successfulFor db sid).drop
        ((successfulFor db sid).length - 10)) ++ [⟨Role.user, msg⟩] := by
  unfold claudeMessages recentConversations
  rw [insertionSort_tsDesc_of_strictAsc h, List.take_reverse,
    List.reverse_reverse]

/-- Under a permitting rate-limit check and no storage exception, the message
list handed to the provider is `claudeMessages`, whatever the provider does. -/
lemma chat_sentMessages_of_permit (cfg : RLConfig) (rlSt : RLState)
    (clientInfo : ClientInfo) (now : ℚ) (req : ChatRequest) (freshId : String)
    (db : List ConversationLog) (provider : ProviderResult) (procTime : ℚ)
    (h : (rate_limit_check cfg rlSt clientInfo.ip now).1 = RLResult.permit) :
    (chat_with_claude cfg rlSt clientInfo now req freshId db none provider
        procTime).sentMessages =
      some (claudeMessages db (resolveSessionId req.sessionId freshId)
        req.message) := by
  rcases hres : rate_limit_check cfg rlSt clientInfo.ip now with ⟨res, st2⟩
  rw [hres] at h
  simp only at h
  subst h
  cases provider <;> simp [chat_with_claude, hres]

/-- C4: the message sequence sent to the provider consists of the at most 10
most recent successful records of the session, reordered oldest-first and
flattened into alternating user/assistant messages, with the new user message
appended last; with no successful history only the current message is sent. -/
theorem provider_prompt_ten_most_recent (cfg : RLConfig) (rlSt : RLState)
    (clientInfo : ClientInfo) (now : ℚ) (req : ChatRequest) (freshId : String)
    (db : List ConversationLog) (provider : ProviderResult) (procTime : ℚ)
    (hpermit : (rate_limit_check cfg rlSt clientInfo.ip now).1 = RLResult.permit)
    (hasc : ((successfulFor db (resolveSessionId req.sessionId freshId)).map
        (fun c => c.timestamp)).Pairwise (· < ·)) :
    (chat_with_claude cfg rlSt clientInfo now req freshId db none provider
        procTime).sentMessages =
      some (buildHistory
        ((successfulFor db (resolveSessionId req.sessionId freshId)).drop
          ((successfulFor db (resolveSessionId req.sessionId freshId)).length - 10))
        ++ [⟨Role.user, req.message⟩])
    ∧ (successfulFor db (resolveSessionId req.sessionId freshId) = [] →
        (chat_with_claude cfg rlSt clientInfo now req freshId db none provider
            procTime).sentMessages = some [⟨Role.user, req.message⟩]) := by
  have hsent := chat_sentMessages_of_permit cfg rlSt clientInfo now req
    freshId db provider procTime hpermit
  constructor
  · rw [hsent, claudeMessages_of_strictAsc hasc]
  · intro hempty
    rw [hsent, claudeMessages_of_strictAsc hasc, hempty]
    simp [buildHistory]

theorem provider_prompt_ten_most_recent_witness :
    ((rate_limit_check ⟨100, 3600⟩ rlEmpty "1.2.3.4" 50).1 = RLResult.permit
      ∧ ((successfulFor
          [⟨"s1", 10, "q1", "a1", 5, 1, "m", true, none, none, none, none⟩,
           ⟨"s1", 20, "q2", "a2", 5, 1, "m", false, some "boom",
             some "general_error", none, none⟩,
           ⟨"s1", 30, "q3", "a3", 5, 1, "m", true, none, none, none, none⟩]
          (resolveSessionId (some "s1") "fresh")).map
          (fun c => c.timestamp)).Pairwise (· < ·))
    ∧ ((chat_with_claude ⟨100, 3600⟩ rlEmpty ⟨"1.2.3.4", "ua", ""⟩ 50
          ⟨"hello", some "s1", "m", 1000⟩ "fresh"
          [⟨"s1", 10, "q1", "a1", 5, 1, "m", true, none, none, none, none⟩,
           ⟨"s1", 20, "q2", "a2", 5, 1, "m", false, some "boom",
             some "general_error", none, none⟩,
           ⟨"s1", 30, "q3", "a3", 5, 1, "m", true, none, none, none, none⟩]
          none (.ok ["r"] 3 4) 2).sentMessages =
        some (buildHistory
          ((successfulFor
            [⟨"s1", 10, "q1", "a1", 5, 1, "m", true, none, none, none, none⟩,
             ⟨"s1", 20, "q2", "a2", 5, 1, "m", false, some "boom",
               some "general_error", none, none⟩,
             ⟨"s1", 30, "q3", "a3", 5, 1, "m", true, none, none, none, none⟩]
            (resolveSessionId (some "s1") "fresh")).drop
            ((successfulFor
              [⟨"s1", 10, "q1", "a1", 5, 1, "m", true, none, none, none, none⟩,
               ⟨"s1", 20, "q2", "a2", 5, 1, "m", false, some "boom",
                 some "general_error", none, none⟩,
               ⟨"s1", 30, "q3", "a3", 5, 1, "m", true, none, none, none,
                 none⟩]
              (resolveSessionId (some "s1") "fresh")).length - 10))
          ++ [⟨Role.user, "hello"⟩])
      ∧ (successfulFor
            [⟨"s1", 10, "q1", "a1", 5, 1, "m", true, none, none, none, none⟩,
             ⟨"s1", 20, "q2", "a2", 5, 1, "m", false, some "boom",
               some "general_error", none, none⟩,
             ⟨"s1", 30, "q3", "a3", 5, 1, "m", true, none, none, none, none⟩]
            (resolveSessionId (some "s1") "fresh") = [] →
          (chat_with_claude ⟨100, 3600⟩ rlEmpty ⟨"1.2.3.4", "ua", ""⟩ 50
            ⟨"hello", some "s1", "m", 1000⟩ "fresh"
            [⟨"s1", 10, "q1", "a1", 5, 1, "m", true, none, none, none, none⟩,
             ⟨"s1", 20, "q2", "a2", 5, 1, "m", false, some "boom",
               some "general_error", none, none⟩,
             ⟨"s1", 30, "q3", "a3", 5, 1, "m", true, none, none, none, none⟩]
            none (.ok ["r"] 3 4) 2).sentMessages =
            some [⟨Role.user, "hello"⟩])) :=
  ⟨⟨by decide, by decide⟩,
    provider_prompt_ten_most_recent ⟨100, 3600⟩ rlEmpty ⟨"1.2.3.4", "ua", ""⟩
      50 ⟨"hello", some "s1", "m", 1000⟩ "fresh" _ (.ok ["r"] 3 4) 2
      (by decide) (by decide)⟩


/-- C2 counterexample: a provider rate-limit failure queues no persistence
task at all — the exchange produces zero ConversationRecords, not exactly one
failed record. -/
theorem provider_failure_no_record_counterexample :
    (chat_with_claude ⟨100, 3600⟩ rlEmpty ⟨"1.2.3.4", "ua", ""⟩ 0
        ⟨"hi", none, "claude-3-sonnet-20240229", 1000⟩ "fresh" [] none
        .rateLimitError 1).tasks = []
    ∧ (chat_with_claude ⟨100, 3600⟩ rlEmpty ⟨"1.2.3.4", "ua", ""⟩ 0
        ⟨"hi", none, "claude-3-sonnet-20240229", 1000⟩ "fresh" [] none
        .rateLimitError 1).outcome =
      .error ⟨429, some "api_rate_limit", some 60⟩ := by
  constructor <;> decide

/-- C2 amended: a failed provider call persists no ConversationRecord — the
`HTTPException` raised for it (429 `api_rate_limit`, 503 `api_error`, 500
`general_error`) is re-raised before any background task is queued; only a
non-HTTP failure in the handler body (modelled by `fetchError`) persists
exactly one record, with `success = false` and `error_type` "general_error". -/
theorem provider_failure_raises_without_record (cfg : RLConfig)
    (rlSt : RLState) (clientInfo : ClientInfo) (now : ℚ) (req : ChatRequest)
    (freshId : String) (db : List ConversationLog) (procTime : ℚ)
    (hpermit : (rate_limit_check cfg rlSt clientInfo.ip now).1 =
      RLResult.permit) :
    ((chat_with_claude cfg rlSt clientInfo now req freshId db none
        .rateLimitError procTime).tasks = []
      ∧ (chat_with_claude cfg rlSt clientInfo now req freshId db none
          .rateLimitError procTime).outcome =
        .error ⟨429, some "api_rate_limit", some 60⟩)
    ∧ ((chat_with_claude cfg rlSt clientInfo now req freshId db none
        .apiError procTime).tasks = []
      ∧ (chat_with_claude cfg rlSt clientInfo now req freshId db none
          .apiError procTime).outcome = .error ⟨503, some "api_error", none⟩)
    ∧ (∀ m, (chat_with_claude cfg rlSt clientInfo now req freshId db none
        (.otherError m) procTime).tasks = []
      ∧ (chat_with_claude cfg rlSt clientInfo now req freshId db none
          (.otherError m) procTime).outcome =
        .error ⟨500, some "general_error", none⟩)
    ∧ (∀ msg provider,
        (chat_with_claude cfg rlSt clientInfo now req freshId db (some msg)
          provider procTime).tasks =
        [.logConv (resolveSessionId req.sessionId freshId) req.message none 0
          procTime req.model false (some msg) (some "general_error")
          (some clientInfo)]) := by
  rcases hres : rate_limit_check cfg rlSt clientInfo.ip now with ⟨res, st2⟩
  rw [hres] at hpermit
  simp only at hpermit
  subst hpermit
  refine ⟨⟨?_, ?_⟩, ⟨?_, ?_⟩, fun m => ⟨?_, ?_⟩, fun msg provider => ?_⟩ <;>
    simp [chat_with_claude, hres]

theorem provider_failure_raises_without_record_witness :
    (rate_limit_check ⟨100, 3600⟩ rlEmpty "1.2.3.4" 0).1 = RLResult.permit
    ∧ (((chat_with_claude ⟨100, 3600⟩ rlEmpty ⟨"1.2.3.4", "ua", ""⟩ 0
        ⟨"hi", none, "m", 1000⟩ "fresh" [] none .rateLimitError 1).tasks = []
      ∧ (chat_with_claude ⟨100, 3600⟩ rlEmpty ⟨"1.2.3.4", "ua", ""⟩ 0
          ⟨"hi", none, "m", 1000⟩ "fresh" [] none .rateLimitError 1).outcome =
        .error ⟨429, some "api_rate_limit", some 60⟩)
    ∧ ((chat_with_claude ⟨100, 3600⟩ rlEmpty ⟨"1.2.3.4", "ua", ""⟩ 0
        ⟨"hi", none, "m", 1000⟩ "fresh" [] none .apiError 1).tasks = []
      ∧ (chat_with_claude ⟨100, 3600⟩ rlEmpty ⟨"1.2.3.4", "ua", ""⟩ 0
          ⟨"hi", none, "m", 1000⟩ "fresh" [] none .apiError 1).outcome =
        .error ⟨503, some "api_error", none⟩)
    ∧ (∀ m, (chat_with_claude ⟨100, 3600⟩ rlEmpty ⟨"1.2.3.4", "ua", ""⟩ 0
        ⟨"hi", none, "m", 1000⟩ "fresh" [] none (.otherError m) 1).tasks = []
      ∧ (chat_with_claude ⟨100, 3600⟩ rlEmpty ⟨"1.2.3.4", "ua", ""⟩ 0
          ⟨"hi", none, "m", 1000⟩ "fresh" [] none (.otherError m) 1).outcome =
        .error ⟨500, some "general_error", none⟩)
    ∧ (∀ msg provider,
        (chat_with_claude ⟨100, 3600⟩ rlEmpty ⟨"1.2.3.4", "ua", ""⟩ 0
          ⟨"hi", none, "m", 1000⟩ "fresh" [] (some msg) provider 1).tasks =
        [.logConv (resolveSessionId none "fresh") "hi" none 0 1 "m" false
          (some msg) (some "general_error")
          (some ⟨"1.2.3.4", "ua", ""⟩)])) :=
  ⟨by decide,
    provider_failure_raises_without_record ⟨100, 3600⟩ rlEmpty
      ⟨"1.2.3.4", "ua", ""⟩ 0 ⟨"hi", none, "m", 1000⟩ "fresh" [] 1
      (by decide)⟩

/-- C3: evaluated at the failing input (first successful exchange of a
session with no existing row), `update_session_stats` creates the new
SessionRecord with `total_messages` left at its column default `0` — the
constructor call never sets or increments it — where the spec requires `1`. -/
theorem first_session_upsert_total_messages_zero :
    (update_session_stats [] (.ok ()) "s1" ⟨"1.2.3.4", "ua", ""⟩ 5).map
      (fun s => (s.sessionUuid, s.totalMessages)) = [("s1", 0)]
    ∧ (update_session_stats
        (update_session_stats [] (.ok ()) "s1" ⟨"1.2.3.4", "ua", ""⟩ 5)
        (.ok ()) "s1" ⟨"1.2.3.4", "ua", ""⟩ 6).map
      (fun s => (s.sessionUuid, s.totalMessages)) = [("s1", 1)] := by
  constructor <;> decide

/-- C8: a provider result with empty `content` is a successful exchange with
a zero-length response text, and the reported token usage is still recorded
in the outcome and in the queued conversation record. -/
theorem empty_provider_response_success (cfg : RLConfig) (rlSt : RLState)
    (clientInfo : ClientInfo) (now : ℚ) (req : ChatRequest) (freshId : String)
    (db : List ConversationLog) (procTime : ℚ) (inputTokens outputTokens : ℕ)
    (hpermit : (rate_limit_check cfg rlSt clientInfo.ip now).1 =
      RLResult.permit) :
    (chat_with_claude cfg rlSt clientInfo now req freshId db none
        (.ok [] inputTokens outputTokens) procTime).outcome =
      .ok ⟨true, some "", resolveSessionId req.sessionId freshId,
        inputTokens + outputTokens, procTime, req.model, none, none⟩
    ∧ (chat_with_claude cfg rlSt clientInfo now req freshId db none
        (.ok [] inputTokens outputTokens) procTime).tasks =
      [.logConv (resolveSessionId req.sessionId freshId) req.message
          (some "") (inputTokens + outputTokens) procTime req.model true none
          none (some clientInfo),
        .updateSession (resolveSessionId req.sessionId freshId) clientInfo] := by
  rcases hres : rate_limit_check cfg rlSt clientInfo.ip now with ⟨res, st2⟩
  rw [hres] at hpermit
  simp only at hpermit
  subst hpermit
  constructor <;> simp [chat_with_claude, hres]

theorem empty_provider_response_success_witness :
    (rate_limit_check ⟨100, 3600⟩ rlEmpty "1.2.3.4" 0).1 = RLResult.permit
    ∧ ((chat_with_claude ⟨100, 3600⟩ rlEmpty ⟨"1.2.3.4", "ua", ""⟩ 0
          ⟨"hi", none, "m", 1000⟩ "fresh" [] none (.ok [] 3 4) 1).outcome =
        .ok ⟨true, some "", resolveSessionId none "fresh", 3 + 4, 1, "m",
          none, none⟩
      ∧ (chat_with_claude ⟨100, 3600⟩ rlEmpty ⟨"1.2.3.4", "ua", ""⟩ 0
          ⟨"hi", none, "m", 1000⟩ "fresh" [] none (.ok [] 3 4) 1).tasks =
        [.logConv (resolveSessionId none "fresh") "hi" (some "") (3 + 4) 1
            "m" true none none (some ⟨"1.2.3.4", "ua", ""⟩),
          .updateSession (resolveSessionId none "fresh")
            ⟨"1.2.3.4", "ua", ""⟩]) :=
  ⟨by decide,
    empty_provider_response_success ⟨100, 3600⟩ rlEmpty ⟨"1.2.3.4", "ua", ""⟩
      0 ⟨"hi", none, "m", 1000⟩ "fresh" [] 1 3 4 (by decide)⟩


/-- C6: each retention sweep deletes exactly the SystemMetrics and ErrorLog
rows strictly older than `now - 30 days`, keeps the newer ones, and never
touches the conversations or sessions tables; concretely, a metric snapshot
31 days old is deleted while one 29 days old is retained. -/
theorem retention_sweep_thirty_days :
    (∀ (db : Database) (now : ℚ),
      (cleanup_old_data db now).1.conversations = db.conversations
      ∧ (cleanup_old_data db now).1.sessions = db.sessions
      ∧ (cleanup_old_data db now).1.metrics =
          db.metrics.filter (fun m => !decide (m.timestamp < now - thirtyDays))
      ∧ (cleanup_old_data db now).1.errorLogs =
          db.errorLogs.filter (fun e => !decide (e.timestamp < now - thirtyDays))
      ∧ (cleanup_old_data db now).2.1 =
          db.metrics.countP (fun m => decide (m.timestamp < now - thirtyDays))
      ∧ (cleanup_old_data db now).2.2 =
          db.errorLogs.countP (fun e => decide (e.timestamp < now - thirtyDays)))
    ∧ (cleanup_old_data
        ⟨[], [],
          [⟨0, 0, 0, 0, 0, 0, 0, 0, 0, "healthy"⟩,
           ⟨172800, 0, 0, 0, 0, 0, 0, 0, 0, "healthy"⟩],
          [⟨0, "old error"⟩, ⟨172800, "new error"⟩]⟩
        2678400).1.metrics = [⟨172800, 0, 0, 0, 0, 0, 0, 0, 0, "healthy"⟩]
    ∧ (cleanup_old_data
        ⟨[], [],
          [⟨0, 0, 0, 0, 0, 0, 0, 0, 0, "healthy"⟩,
           ⟨172800, 0, 0, 0, 0, 0, 0, 0, 0, "healthy"⟩],
          [⟨0, "old error"⟩, ⟨172800, "new error"⟩]⟩
        2678400).1.errorLogs = [⟨172800, "new error"⟩] := by
  refine ⟨fun db now => ⟨rfl, rfl, rfl, rfl, rfl, rfl⟩, ?_, ?_⟩ <;>
    norm_num [cleanup_old_data, thirtyDays, List.filter]

/-- C7: a storage failure during either background write rolls the
transaction back (the table is unchanged) and is not propagated — both
persistence functions are total, and the `ChatOutcome` of the exchange is
the same whatever the commit outcomes of its persistence tasks are. -/
theorem persistence_failure_swallowed :
    (∀ (convs : List ConversationLog) (err : String) (now : ℚ)
        (sessionId userMessage : String) (assistantResponse : Option String)
        (tokensUsed : ℕ) (processingTime : ℚ) (modelUsed : String)
        (success : Bool) (errorMessage errorType : Option String)
        (clientInfo : Option ClientInfo),
      log_conversation convs (.error err) now sessionId userMessage
        assistantResponse tokensUsed processingTime modelUsed success
        errorMessage errorType clientInfo = convs)
    ∧ (∀ (sessions : List UserSession) (err : String) (sessionId : String)
        (clientInfo : ClientInfo) (now : ℚ),
      update_session_stats sessions (.error err) sessionId clientInfo now =
        sessions)
    ∧ (∀ (cfg : RLConfig) (rlSt : RLState) (clientInfo : ClientInfo) (now : ℚ)
        (req : ChatRequest) (freshId : String) (db : Database)
        (fetchError : Option String) (provider : ProviderResult)
        (procTime : ℚ) (commits commits' : List Commit),
      (chatExchange cfg rlSt clientInfo now req freshId db fetchError provider
          procTime commits).1 =
        (chatExchange cfg rlSt clientInfo now req freshId db fetchError
          provider procTime commits').1) :=
  ⟨fun _ _ _ _ _ _ _ _ _ _ _ _ _ => rfl, fun _ _ _ _ _ => rfl,
    fun _ _ _ _ _ _ _ _ _ _ _ _ => rfl⟩

/-- C9 counterexample: upserting an existing SessionRecord also refreshes the
`updated_at` column (its `onupdate=datetime.utcnow` fires on the UPDATE), so
`last_activity` and `total_messages` are not the only fields that change. -/
theorem session_upsert_changes_updated_at :
    (update_session_stats
        [⟨"s1", 0, 0, "active", 0, 0, 0, none, none, 0, 0, 0⟩] (.ok ())
        "s1" ⟨"1.2.3.4", "ua", ""⟩ 5).map (fun s => s.updatedAt) ≠
      ([⟨"s1", 0, 0, "active", 0, 0, 0, none, none, 0, 0, 0⟩] :
        List UserSession).map (fun s => s.updatedAt) := by
  decide

/-- The four SessionRecord aggregate columns that no code path ever writes. -/
def untouchedAggregatesZero (s : UserSession) : Prop :=
  s.totalTokens = 0 ∧ s.totalProcessingTime = 0 ∧ s.totalErrors = 0
    ∧ s.avgResponseTime = 0

/-- A sequence of `update_session_stats` calls (the only writer of the
`user_sessions` table), each with its commit outcome. -/
def applyUpserts (tbl : List UserSession) :
    List (Commit × String × ClientInfo × ℚ) → List UserSession
  | [] => tbl
  | op :: ops =>
      applyUpserts (update_session_stats tbl op.1 op.2.1 op.2.2.1 op.2.2.2) ops

lemma updateFirst_mem {p : α → Bool} {f : α → α} {l : List α} {x : α}
    (hx : x ∈ updateFirst p f l) : x ∈ l ∨ ∃ y ∈ l, x = f y := by
  induction l with
  | nil => simp [updateFirst] at hx
  | cons a m ih =>
      rw [updateFirst] at hx
      by_cases ha : p a
      · rw [if_pos ha] at hx
        rcases List.mem_cons.mp hx with h | h
        · exact Or.inr ⟨a, List.mem_cons_self _ _, h⟩
        · exact Or.inl (List.mem_cons_of_mem _ h)
      · rw [if_neg ha] at hx
        rcases List.mem_cons.mp hx with h | h
        · exact Or.inl (h ▸ List.mem_cons_self _ _)
        · rcases ih h with h2 | ⟨y, hy, hxy⟩
          · exact Or.inl (List.mem_cons_of_mem _ h2)
          · exact Or.inr ⟨y, List.mem_cons_of_mem _ hy, hxy⟩

lemma updateFirst_map_eq {p : α → Bool} {f : α → α} {g : α → β} {l : List α}
    (h : ∀ x, g (f x) = g x) : (updateFirst p f l).map g = l.map g := by
  induction l with
  | nil => rfl
  | cons a m ih =>
      rw [updateFirst]
      by_cases ha : p a
      · rw [if_pos ha]
        simp [h a]
      · rw [if_neg ha]
        simp [ih]

lemma update_session_stats_preserves_zero {tbl : List UserSession}
    (h : ∀ s ∈ tbl, untouchedAggregatesZero s) (commit : Commit)
    (sessionId : String) (clientInfo : ClientInfo) (now : ℚ) :
    ∀ s ∈ update_session_stats tbl commit sessionId clientInfo now,
      untouchedAggregatesZero s := by
  intro s hs
  match commit with
  | .error _ => exact h s hs
  | .ok _ =>
      rw [update_session_stats] at hs
      cases hfind : tbl.find? (fun s => s.sessionUuid == sessionId) with
      | none =>
          rw [hfind] at hs
          simp only at hs
          rcases List.mem_append.mp hs with h2 | h2
          · exact h s h2
          · have : s = newUserSession sessionId clientInfo now := by
              simpa using h2
            subst this
            exact ⟨rfl, rfl, rfl, rfl⟩
      | some s0 =>
          rw [hfind] at hs
          simp only at hs
          rcases updateFirst_mem hs with h2 | ⟨y, hy, hxy⟩
          · exact h s h2
          · subst hxy
            obtain ⟨h1, h2, h3, h4⟩ := h y hy
            exact ⟨h1, h2, h3, h4⟩

/-- C9 amended: a session upsert on an existing record changes only
`last_activity`, `total_messages` and the ORM-managed `updated_at` column —
every other column of every row is unchanged — and across any sequence of
upserts (the only writer of the table) the `total_tokens`,
`total_processing_time`, `total_errors` and `avg_response_time` columns
remain at their zero defaults. -/
theorem session_upsert_frame (sessions : List UserSession) (sid : String)
    (ci : ClientInfo) (now : ℚ) (s0 : UserSession)
    (hfound : sessions.find? (fun s => s.sessionUuid == sid) = some s0) :
    (update_session_stats sessions (.ok ()) sid ci now).map
        (fun s => (s.sessionUuid, s.createdAt, s.sessionStatus, s.totalTokens,
          s.totalProcessingTime, s.userIp, s.userAgent, s.totalErrors,
          s.avgResponseTime)) =
      sessions.map
        (fun s => (s.sessionUuid, s.createdAt, s.sessionStatus, s.totalTokens,
          s.totalProcessingTime, s.userIp, s.userAgent, s.totalErrors,
          s.avgResponseTime))
    ∧ (∀ (tbl : List UserSession)
        (ops : List (Commit × String × ClientInfo × ℚ)),
        (∀ s ∈ tbl, untouchedAggregatesZero s) →
        ∀ s ∈ applyUpserts tbl ops, untouchedAggregatesZero s) := by
  constructor
  · rw [update_session_stats]
    simp only [hfound]
    exact updateFirst_map_eq (fun x => rfl)
  · intro tbl ops
    induction ops generalizing tbl with
    | nil => intro h s hs; exact h s hs
    | cons op rest ih =>
        intro h s hs
        rw [applyUpserts] at hs
        exact ih _ (update_session_stats_preserves_zero h op.1 op.2.1
          op.2.2.1 op.2.2.2) s hs

theorem session_upsert_frame_witness :
    ([⟨"s1", 0, 1, "active", 3, 0, 0, none, none, 0, 0, 2⟩] :
        List UserSession).find? (fun s => s.sessionUuid == "s1") =
      some ⟨"s1", 0, 1, "active", 3, 0, 0, none, none, 0, 0, 2⟩
    ∧ ((update_session_stats
          [⟨"s1", 0, 1, "active", 3, 0, 0, none, none, 0, 0, 2⟩] (.ok ())
          "s1" ⟨"1.2.3.4", "ua", ""⟩ 5).map
          (fun s => (s.sessionUuid, s.createdAt, s.sessionStatus,
            s.totalTokens, s.totalProcessingTime, s.userIp, s.userAgent,
            s.totalErrors, s.avgResponseTime)) =
        ([⟨"s1", 0, 1, "active", 3, 0, 0, none, none, 0, 0, 2⟩] :
          List UserSession).map
          (fun s => (s.sessionUuid, s.createdAt, s.sessionStatus,
            s.totalTokens, s.totalProcessingTime, s.userIp, s.userAgent,
            s.totalErrors, s.avgResponseTime))
      ∧ (∀ (tbl : List UserSession)
          (ops : List (Commit × String × ClientInfo × ℚ)),
          (∀ s ∈ tbl, untouchedAggregatesZero s) →
          ∀ s ∈ applyUpserts tbl ops, untouchedAggregatesZero s)) :=
  ⟨by decide,
    session_upsert_frame [⟨"s1", 0, 1, "active", 3, 0, 0, none, none, 0, 0, 2⟩]
      "s1" ⟨"1.2.3.4", "ua", ""⟩ 5
      ⟨"s1", 0, 1, "active", 3, 0, 0, none, none, 0, 0, 2⟩ (by decide)⟩

/-- C10: a history request for a session with no stored successful
conversations succeeds with that session id and an empty list, while a
session-info request for an unknown session id fails with a 404 error. -/
theorem history_empty_vs_session_info_missing (db : List ConversationLog)
    (sessions : List UserSession) (sid : String) (limit : ℕ)
    (h1 : successfulFor db sid = [])
    (h2 : sessions.find? (fun s => s.sessionUuid == sid) = none) :
    get_conversation_history db sid limit = ⟨sid, []⟩
    ∧ get_session_info sessions sid = .error ⟨404, none, none⟩ := by
  constructor
  · simp [get_conversation_history, recentConversations, h1]
  · simp [get_session_info, h2]

theorem history_empty_vs_session_info_missing_witness :
    (successfulFor
        [⟨"s1", 20, "q", "a", 5, 1, "m", false, some "boom",
          some "general_error", none, none⟩] "s9" = []
      ∧ ([⟨"s2", 0, 1, "active", 3, 0, 0, none, none, 0, 0, 2⟩] :
          List UserSession).find? (fun s => s.sessionUuid == "s9") = none)
    ∧ (get_conversation_history
        [⟨"s1", 20, "q", "a", 5, 1, "m", false, some "boom",
          some "general_error", none, none⟩] "s9" 50 = ⟨"s9", []⟩
      ∧ get_session_info
          [⟨"s2", 0, 1, "active", 3, 0, 0, none, none, 0, 0, 2⟩] "s9" =
        .error ⟨404, none, none⟩) :=
  ⟨⟨by decide, by decide⟩,
    history_empty_vs_session_info_missing
      [⟨"s1", 20, "q", "a", 5, 1, "m", false, some "boom",
        some "general_error", none, none⟩]
      [⟨"s2", 0, 1, "active", 3, 0, 0, none, none, 0, 0, 2⟩] "s9" 50
      (by decide) (by decide)⟩

end ClaudeAgent
